import Mathlib

/-!
Shallow embedding of the cli-notes application (src/cli_notes/app.py).

Paths are lists of segments. The filesystem is an association list from
paths to entries (a file with its text content, or a directory), mirroring
the POSIX operations the app uses through pathlib: write_text, read_text,
unlink, rmdir, mkdir(parents=True, exist_ok=True), iterdir, is_file,
is_dir, exists.

The application state gathers the fields of NotesApp that the workflow
reads and writes: the notes root, the filesystem, current_file (the
ActiveDocument), the DirectoryTree cursor (the Selection), whether the
content pane currently shows a Markdown widget (versus the placeholder
Static), the modal mode (which screen is pushed), and the list of
notify() messages with their severities.
-/

namespace CliNotes

abbrev Path := List String

/-- Filesystem entry: a document with its content, or a directory. -/
inductive Entry where
  | file (content : String)
  | dir
deriving DecidableEq, Repr

/-- The filesystem: an association list from absolute paths to entries. -/
abbrev Fs := List (Path × Entry)

/-- Typed outcomes of the pathlib calls the app makes (the exceptions
Python would raise). -/
inductive PyErr where
  | fileExists
  | notFound
  | isADirectory
  | notADirectory
  | dirNotEmpty
deriving DecidableEq, Repr

/-- Look a path up in the filesystem. -/
def fsFind : Fs → Path → Option Entry
  | [], _ => none
  | (q, e) :: rest, p => if q = p then some e else fsFind rest p

/-- Remove every binding of a path. -/
def fsErase : Fs → Path → Fs
  | [], _ => []
  | (q, e) :: rest, p => if q = p then fsErase rest p else (q, e) :: fsErase rest p

/-- Bind a path to an entry, replacing any previous binding. -/
def fsSet (fs : Fs) (p : Path) (e : Entry) : Fs :=
  (p, e) :: fsErase fs p

/-- Python Path.exists(). -/
def pexists (fs : Fs) (p : Path) : Bool :=
  (fsFind fs p).isSome

/-- Python Path.is_file(). -/
def isFile (fs : Fs) (p : Path) : Bool :=
  match fsFind fs p with
  | some (.file _) => true
  | _ => false

/-- Python Path.is_dir(). -/
def isDir (fs : Fs) (p : Path) : Bool :=
  match fsFind fs p with
  | some .dir => true
  | _ => false

/-- Does q lie directly inside p (q is p plus exactly one more segment)? -/
def isChildOf (q p : Path) : Bool :=
  !q.isEmpty && q.dropLast = p

/-- Python any(p.iterdir()): does the directory have at least one child? -/
def hasChildren (fs : Fs) (p : Path) : Bool :=
  fs.any (fun e => isChildOf e.1 p)

/-- Python Path.read_text(). -/
def read_text (fs : Fs) (p : Path) : Except PyErr String :=
  match fsFind fs p with
  | some (.file c) => .ok c
  | some .dir => .error .isADirectory
  | none => .error .notFound

/-- Python Path.write_text(c): creates or fully overwrites the file; fails
if the path is a directory or the parent directory is missing. -/
def write_text (fs : Fs) (p : Path) (c : String) : Except PyErr Fs :=
  match fsFind fs p with
  | some .dir => .error .isADirectory
  | _ =>
    if isDir fs p.dropLast then .ok (fsSet fs p (.file c))
    else .error .notFound

/-- Python Path.unlink(): removes a file. -/
def unlink (fs : Fs) (p : Path) : Except PyErr Fs :=
  match fsFind fs p with
  | some (.file _) => .ok (fsErase fs p)
  | some .dir => .error .isADirectory
  | none => .error .notFound

/-- Python Path.rmdir(): removes an empty directory. -/
def rmdir (fs : Fs) (p : Path) : Except PyErr Fs :=
  match fsFind fs p with
  | some .dir =>
    if hasChildren fs p then .error .dirNotEmpty else .ok (fsErase fs p)
  | some (.file _) => .error .notADirectory
  | none => .error .notFound

/-- Helper for mkdirp: create each missing prefix as a directory, walking
the segments from the root. -/
def mkdirpGo (fs : Fs) (acc : Path) : List String → Except PyErr Fs
  | [] => .ok fs
  | seg :: rest =>
    let q := acc ++ [seg]
    match fsFind fs q with
    | some (.file _) => .error .fileExists
    | some .dir => mkdirpGo fs q rest
    | none => mkdirpGo (fsSet fs q .dir) q rest

/-- Python Path.mkdir(parents=True, exist_ok=True): succeeds at once if the
path is already a directory; fails if a file occupies it; otherwise creates
the missing ancestors and the directory itself. -/
def mkdirp (fs : Fs) (p : Path) : Except PyErr Fs :=
  match fsFind fs p with
  | some .dir => .ok fs
  | some (.file _) => .error .fileExists
  | none => mkdirpGo fs [] p

/-- Python str.strip(): remove whitespace from both ends, modelled on the
character list of the string. -/
def pyStrip (s : String) : String :=
  String.mk (((s.data.dropWhile Char.isWhitespace).reverse.dropWhile
    Char.isWhitespace).reverse)

/-- Python str.endswith(t), modelled on the character lists. -/
def pyEndsWith (s t : String) : Bool :=
  t.data.reverse.isPrefixOf s.data.reverse

/-- Python slicing s[:-n]: the string without its last n characters. -/
def pyDropRight (s : String) (n : Nat) : String :=
  String.mk (s.data.take (s.data.length - n))

/-- Severity levels of NotesApp.notify (textual severities used in app.py). -/
inductive Severity where
  | information
  | warning
  | error
deriving DecidableEq, Repr

/-- The modal mode: which screen is currently pushed.  browsing is the main
screen; creatingNote / creatingFolder carry the parent_dir the pushed
screen was constructed with; editing carries the note_path given to
EditNoteScreen. -/
inductive Mode where
  | browsing
  | creatingNote (parent_dir : Path)
  | creatingFolder (parent_dir : Path)
  | editing (note_path : Path)
deriving DecidableEq, Repr

/-- The NotesApp state the workflow reads and writes. -/
structure AppState where
  notes_dir : Path
  fs : Fs
  current_file : Option Path
  selection : Option Path
  viewer_markdown : Bool
  mode : Mode
  msgs : List (String × Severity)
deriving DecidableEq, Repr

/-- NotesApp.notify: append a message with its severity. -/
def notify (s : AppState) (m : String) (sev : Severity) : AppState :=
  { s with msgs := s.msgs ++ [(m, sev)] }

/-- Last path segment (Python Path.name). -/
def fileName (p : Path) : String :=
  p.getLast?.getD ""

/-- NotesApp.show_note: read the note and replace the viewer with a
Markdown widget; on a read error, notify with severity error. -/
def show_note (s : AppState) (p : Path) : AppState :=
  match read_text s.fs p with
  | .ok _ => { s with viewer_markdown := true }
  | .error _ => notify s "Error reading note" .error

/-- NotesApp.refresh_tree, i.e. tree.reload() on the external DirectoryTree
widget: the widget re-walks the filesystem; its cursor is kept when the
path it points at still exists and is dropped otherwise (the app passes the
widget no path to move the cursor to).  No NotesApp field other than the
tree is touched: in particular current_file is left exactly as it was. -/
def refresh_tree (s : AppState) : AppState :=
  { s with selection :=
      match s.selection with
      | some p => if pexists s.fs p then some p else none
      | none => none }

/-- NotesApp.action_refresh: refresh the tree, then notify. -/
def action_refresh (s : AppState) : AppState :=
  notify (refresh_tree s) "Refreshed" .information

/-- The parent-directory resolution duplicated in NotesApp.action_new_note
and NotesApp.action_new_folder: the cursor path if a cursor exists (else
the notes root); then, if that path is a file, its parent, else the path
itself. -/
def resolveParentDirectory (s : AppState) : Path :=
  let selected := s.selection.getD s.notes_dir
  if isFile s.fs selected then selected.dropLast else selected

/-- NotesApp.action_new_note: resolve the target directory and push
NewNoteScreen constructed with it. -/
def action_new_note (s : AppState) : AppState :=
  { s with mode := .creatingNote (resolveParentDirectory s) }

/-- NotesApp.action_new_folder: resolve the target directory and push
NewFolderScreen constructed with it. -/
def action_new_folder (s : AppState) : AppState :=
  { s with mode := .creatingFolder (resolveParentDirectory s) }

/-- NotesApp.action_edit_note: warn when no note is selected, else push
EditNoteScreen on the current file. -/
def action_edit_note (s : AppState) : AppState :=
  match s.current_file with
  | none => notify s "No note selected" .warning
  | some p => { s with mode := .editing p }

/-- The file name NewNoteScreen.action_save derives from the typed name:
strip it, then append the .md extension when it is not already there. -/
def noteFileName (raw : String) : String :=
  let note_name := pyStrip raw
  if pyEndsWith note_name ".md" then note_name else note_name ++ ".md"

/-- The templated body written by NewNoteScreen.action_save; its heading is
the file name without the three characters of the .md extension. -/
def noteBody (fname : String) : String :=
  "# " ++ pyDropRight fname 3 ++ "\n\nYour note content here...\n"

/-- NewNoteScreen.action_save followed by the dismiss callback
handle_new_note in NotesApp.action_new_note.  Empty trimmed name: return
without dismissing.  Otherwise append the .md extension when absent, write
the templated body, and on dismiss: notify, refresh the tree, set
current_file, and show the note.  A write exception would propagate before
the dismiss, leaving the state as it was. -/
def note_save (s : AppState) (parent_dir : Path) (raw : String) : AppState :=
  if pyStrip raw = "" then s
  else
    let fname := noteFileName raw
    let note_path := parent_dir ++ [fname]
    match write_text s.fs note_path (noteBody fname) with
    | .error _ => s
    | .ok fs2 =>
      let s1 := { s with fs := fs2, mode := Mode.browsing }
      let s2 := notify s1 ("Created note: " ++ fname) .information
      let s3 := refresh_tree s2
      let s4 := { s3 with current_file := some note_path }
      show_note s4 note_path

/-- NewFolderScreen.action_save followed by the dismiss callback
handle_new_folder in NotesApp.action_new_folder.  Empty trimmed name:
return without dismissing.  Otherwise mkdir(parents=True, exist_ok=True)
and on dismiss: notify and refresh the tree. -/
def folder_save (s : AppState) (parent_dir : Path) (raw : String) : AppState :=
  let folder_name := pyStrip raw
  if folder_name = "" then s
  else
    let folder_path := parent_dir ++ [folder_name]
    match mkdirp s.fs folder_path with
    | .error _ => s
    | .ok fs2 =>
      let s1 := { s with fs := fs2, mode := Mode.browsing }
      let s2 := notify s1 ("Created folder: " ++ folder_name) .information
      refresh_tree s2

/-- Confirm (Ctrl+S / Save button) on whichever creation screen is pushed. -/
def confirm_name (s : AppState) (raw : String) : AppState :=
  match s.mode with
  | .creatingNote pd => note_save s pd raw
  | .creatingFolder pd => folder_save s pd raw
  | _ => s

/-- EditNoteScreen.action_save followed by the dismiss callback handle_edit
in NotesApp.action_edit_note: write the edited text to note_path, then on
dismiss(True) notify Saved and re-show current_file. -/
def edit_save (s : AppState) (content : String) : AppState :=
  match s.mode with
  | .editing note_path =>
    match write_text s.fs note_path content with
    | .error _ => s
    | .ok fs2 =>
      let s1 := { s with fs := fs2, mode := Mode.browsing }
      match s1.current_file with
      | some q => show_note (notify s1 ("Saved: " ++ fileName q) .information) q
      | none => s1
  | _ => s

/-- Tail of NotesApp.action_delete_note after a successful branch: clear
current_file, refresh the tree, and put the placeholder Static back in
place of any Markdown viewer. -/
def delete_epilogue (s : AppState) : AppState :=
  let s1 := { s with current_file := none }
  let s2 := refresh_tree s1
  { s2 with viewer_markdown := false }

/-- NotesApp.action_delete_note: warn when there is no cursor; refuse the
notes root with an error; unlink a file; rmdir an empty folder after the
emptiness check (warn and return when non-empty); then clear current_file,
refresh, and reset the viewer.  The is_file / is_dir guards make the
unlink / rmdir error branches unreachable in this single-threaded model,
but they are kept to mirror the try/except in the source. -/
def action_delete_note (s : AppState) : AppState :=
  match s.selection with
  | none => notify s "No item selected" .warning
  | some selected_path =>
    if selected_path = s.notes_dir then
      notify s "Cannot delete the root notes directory" .error
    else if isFile s.fs selected_path then
      match unlink s.fs selected_path with
      | .error _ => notify s "Error deleting" .error
      | .ok fs2 =>
        delete_epilogue
          (notify { s with fs := fs2 }
            ("Deleted: " ++ fileName selected_path) .information)
    else if isDir s.fs selected_path then
      if hasChildren s.fs selected_path then
        notify s "Folder is not empty. Delete contents first." .warning
      else
        match rmdir s.fs selected_path with
        | .error _ => notify s "Error deleting" .error
        | .ok fs2 =>
          delete_epilogue
            (notify { s with fs := fs2 }
              ("Deleted folder: " ++ fileName selected_path) .information)
    else
      delete_epilogue s

/-! Concrete states used to evaluate the claims on small inputs.  Each
claim has its own state so they can be read independently. -/

/-- A state whose selection is the non-empty folder n/B. -/
def c1s : AppState :=
  { notes_dir := ["n"],
    fs := [(["n"], .dir), (["n", "B"], .dir), (["n", "B", "x.md"], .file "hi")],
    current_file := some ["n", "B", "x.md"], selection := some ["n", "B"],
    viewer_markdown := true, mode := .browsing, msgs := [] }

/-- A state whose selection is the empty folder n/C. -/
def c1e : AppState :=
  { notes_dir := ["n"],
    fs := [(["n"], .dir), (["n", "C"], .dir), (["n", "d.md"], .file "keep")],
    current_file := none, selection := some ["n", "C"],
    viewer_markdown := false, mode := .browsing, msgs := [] }

/-- A state whose selection is the document n/a.md. -/
def c2s : AppState :=
  { notes_dir := ["n"],
    fs := [(["n"], .dir), (["n", "a.md"], .file "text")],
    current_file := none, selection := some ["n", "a.md"],
    viewer_markdown := false, mode := .browsing, msgs := [] }

/-- A creating-note state whose target path n/todo.md is already occupied
by a document. -/
def c3s : AppState :=
  { notes_dir := ["n"],
    fs := [(["n"], .dir), (["n", "todo.md"], .file "old important text")],
    current_file := none, selection := some ["n"],
    viewer_markdown := false, mode := .creatingNote ["n"], msgs := [] }

/-- A state whose current_file points at a path that no longer exists. -/
def c4s : AppState :=
  { notes_dir := ["n"], fs := [(["n"], .dir)],
    current_file := some ["n", "gone.md"], selection := none,
    viewer_markdown := true, mode := .browsing, msgs := [] }

/-- A browsing state with the empty folder n/A selected, as in Scenario B
of the spec. -/
def c5s : AppState :=
  { notes_dir := ["n"],
    fs := [(["n"], .dir), (["n", "A"], .dir)],
    current_file := none, selection := some ["n", "A"],
    viewer_markdown := false, mode := .browsing, msgs := [] }

/-- An editing state whose note n/gone.md was removed after the screen was
opened. -/
def c6s : AppState :=
  { notes_dir := ["n"], fs := [(["n"], .dir)],
    current_file := some ["n", "gone.md"], selection := some ["n", "gone.md"],
    viewer_markdown := true, mode := .editing ["n", "gone.md"], msgs := [] }

/-- A creating-note state, used to confirm an all-whitespace name. -/
def c7s : AppState :=
  { notes_dir := ["n"], fs := [(["n"], .dir)],
    current_file := none, selection := none,
    viewer_markdown := false, mode := .creatingNote ["n"], msgs := [] }

/-- A creating-folder state whose target folder n/sub already exists. -/
def c8s : AppState :=
  { notes_dir := ["n"],
    fs := [(["n"], .dir), (["n", "sub"], .dir)],
    current_file := none, selection := some ["n"],
    viewer_markdown := false, mode := .creatingFolder ["n"], msgs := [] }

/-- A state whose selection is the notes root itself. -/
def c9s : AppState :=
  { notes_dir := ["n"],
    fs := [(["n"], .dir), (["n", "a.md"], .file "text")],
    current_file := some ["n", "a.md"], selection := some ["n"],
    viewer_markdown := true, mode := .browsing, msgs := [] }

/-- A state with no selection at all. -/
def c9n : AppState :=
  { notes_dir := ["n"], fs := [(["n"], .dir)],
    current_file := none, selection := none,
    viewer_markdown := false, mode := .browsing, msgs := [] }

/-- A state selecting the document n/other.md while current_file points at
the different document n/shown.md. -/
def c10s : AppState :=
  { notes_dir := ["n"],
    fs := [(["n"], .dir), (["n", "shown.md"], .file "s"),
           (["n", "other.md"], .file "o")],
    current_file := some ["n", "shown.md"], selection := some ["n", "other.md"],
    viewer_markdown := true, mode := .browsing, msgs := [] }

/-! Basic facts about the filesystem model. -/

theorem fsFind_fsErase_self (fs : Fs) (p : Path) :
    fsFind (fsErase fs p) p = none := by
  induction fs with
  | nil => rfl
  | cons hd tl ih =>
    obtain ⟨q, e⟩ := hd
    by_cases h : q = p
    · simpa [fsErase, h] using ih
    · simpa [fsErase, fsFind, h] using ih

theorem fsFind_fsErase_ne (fs : Fs) (p q : Path) (h : q ≠ p) :
    fsFind (fsErase fs p) q = fsFind fs q := by
  induction fs with
  | nil => rfl
  | cons hd tl ih =>
    obtain ⟨r, e⟩ := hd
    by_cases hr : r = p
    · subst hr
      simpa [fsErase, fsFind, Ne.symm h] using ih
    · by_cases hq : r = q <;> simp [fsErase, fsFind, hr, hq, h, ih]

theorem fsFind_fsSet_self (fs : Fs) (p : Path) (e : Entry) :
    fsFind (fsSet fs p e) p = some e := by
  simp [fsSet, fsFind]

theorem fsFind_fsSet_ne (fs : Fs) (p q : Path) (e : Entry) (h : q ≠ p) :
    fsFind (fsSet fs p e) q = fsFind fs q := by
  simp [fsSet, fsFind, Ne.symm h, fsFind_fsErase_ne fs p q h]

theorem isDir_iff (fs : Fs) (p : Path) :
    isDir fs p = true ↔ fsFind fs p = some Entry.dir := by
  unfold isDir
  cases hf : fsFind fs p with
  | none => simp
  | some e => cases e <;> simp

theorem isFile_iff (fs : Fs) (p : Path) :
    isFile fs p = true ↔ ∃ c, fsFind fs p = some (Entry.file c) := by
  unfold isFile
  cases hf : fsFind fs p with
  | none => simp
  | some e => cases e <;> simp

theorem isFile_false_of_isDir (fs : Fs) (p : Path) (h : isDir fs p = true) :
    isFile fs p = false := by
  unfold isFile
  rw [(isDir_iff fs p).mp h]

theorem pexists_fsSet (fs : Fs) (p q : Path) (e : Entry)
    (h : pexists fs q = true) : pexists (fsSet fs p e) q = true := by
  by_cases hq : q = p
  · subst hq
    simp [pexists, fsFind_fsSet_self]
  · simpa [pexists, fsFind_fsSet_ne fs p q e hq] using h

/-! Claims. -/

/-- C1: for every delete on a Folder selection, a folder with at least one
child is never removed — a warning is issued and the filesystem,
current_file, selection, mode and viewer are all unchanged — while a
folder with zero children is removed and every other path is untouched. -/
theorem C1_folder_delete_safety (s : AppState) (p : Path)
    (hsel : s.selection = some p) (hroot : p ≠ s.notes_dir)
    (hdir : isDir s.fs p = true) :
    (hasChildren s.fs p = true →
      (action_delete_note s).fs = s.fs ∧
      (action_delete_note s).current_file = s.current_file ∧
      (action_delete_note s).selection = s.selection ∧
      (action_delete_note s).mode = s.mode ∧
      (action_delete_note s).viewer_markdown = s.viewer_markdown ∧
      (action_delete_note s).msgs =
        s.msgs ++ [("Folder is not empty. Delete contents first.", Severity.warning)]) ∧
    (hasChildren s.fs p = false →
      fsFind (action_delete_note s).fs p = none ∧
      ∀ q, q ≠ p → fsFind (action_delete_note s).fs q = fsFind s.fs q) := by
  have hfile := isFile_false_of_isDir s.fs p hdir
  constructor
  · intro hc
    simp [action_delete_note, hsel, hroot, hfile, hdir, hc, notify]
  · intro hc
    have hfd := (isDir_iff s.fs p).mp hdir
    simp only [action_delete_note, hsel, hroot, if_false, hfile, hdir, hc,
      Bool.false_eq_true, if_true, rmdir, hfd, delete_epilogue, refresh_tree,
      notify]
    constructor
    · simp [fsFind_fsErase_self]
    · intro q hq
      simp [fsFind_fsErase_ne s.fs p q hq]

/-- Witness for C1: deleting the non-empty folder n/B of c1s changes no
filesystem entry and appends the warning. -/
theorem C1_folder_delete_safety_witness :
    hasChildren c1s.fs ["n", "B"] = true ∧
    ((action_delete_note c1s).fs = c1s.fs ∧
     (action_delete_note c1s).current_file = c1s.current_file ∧
     (action_delete_note c1s).selection = c1s.selection ∧
     (action_delete_note c1s).mode = c1s.mode ∧
     (action_delete_note c1s).viewer_markdown = c1s.viewer_markdown ∧
     (action_delete_note c1s).msgs = c1s.msgs ++
       [("Folder is not empty. Delete contents first.", Severity.warning)]) :=
  ⟨by decide,
   (C1_folder_delete_safety c1s ["n", "B"] rfl (by decide) (by decide)).1
     (by decide)⟩

/-- C2: the creation target directory is the selected folder itself when a
folder is selected, the parent of the selected document when a document is
selected, and the notes root when nothing is selected; both
action_new_note and action_new_folder construct their screens with exactly
this directory. -/
theorem C2_parent_resolution (s : AppState) :
    (s.selection = none → isDir s.fs s.notes_dir = true →
      resolveParentDirectory s = s.notes_dir) ∧
    (∀ p, s.selection = some p → isDir s.fs p = true →
      resolveParentDirectory s = p) ∧
    (∀ p, s.selection = some p → isFile s.fs p = true →
      resolveParentDirectory s = p.dropLast) ∧
    (action_new_note s).mode = Mode.creatingNote (resolveParentDirectory s) ∧
    (action_new_folder s).mode = Mode.creatingFolder (resolveParentDirectory s) := by
  refine ⟨?_, ?_, ?_, rfl, rfl⟩
  · intro hn hd
    simp [resolveParentDirectory, hn, isFile_false_of_isDir _ _ hd]
  · intro p hp hd
    simp [resolveParentDirectory, hp, isFile_false_of_isDir _ _ hd]
  · intro p hp hf
    simp [resolveParentDirectory, hp, hf]

/-- Witness for C2: with the document n/a.md selected in c2s, the creation
target is its parent n. -/
theorem C2_parent_resolution_witness :
    isFile c2s.fs ["n", "a.md"] = true ∧ resolveParentDirectory c2s = ["n"] :=
  ⟨by decide, (C2_parent_resolution c2s).2.2.1 ["n", "a.md"] rfl (by decide)⟩

/-- Counterexample for C3: in c3s an entry already exists at n/todo.md,
yet confirming the creation succeeds — the screen is dismissed, a Created
message is issued — and the existing content is replaced by the template:
the creation neither fails with an AlreadyExists outcome nor leaves the
existing content unchanged. -/
theorem C3_counterexample :
    pexists c3s.fs ["n", "todo.md"] = true ∧
    fsFind c3s.fs ["n", "todo.md"] = some (.file "old important text") ∧
    (confirm_name c3s "todo").mode = Mode.browsing ∧
    (confirm_name c3s "todo").msgs =
      [("Created note: todo.md", Severity.information)] ∧
    fsFind (confirm_name c3s "todo").fs ["n", "todo.md"] =
      some (.file "# todo\n\nYour note content here...\n") := by decide

/-- C3 amended: when the parent directory exists and no folder occupies
the target path, creating a document there always succeeds and writes the
full templated content — silently overwriting any document already at that
path rather than failing with an AlreadyExists outcome; when the path did
not exist the content is written just the same. -/
theorem C3_create_overwrites (s : AppState) (pd : Path) (raw : String)
    (hm : s.mode = Mode.creatingNote pd) (hne : pyStrip raw ≠ "")
    (hpar : isDir s.fs pd = true)
    (hnd : fsFind s.fs (pd ++ [noteFileName raw]) ≠ some Entry.dir) :
    (confirm_name s raw).mode = Mode.browsing ∧
    fsFind (confirm_name s raw).fs (pd ++ [noteFileName raw]) =
      some (.file (noteBody (noteFileName raw))) := by
  have hdl : (pd ++ [noteFileName raw]).dropLast = pd := by simp
  have hstep : write_text s.fs (pd ++ [noteFileName raw])
      (noteBody (noteFileName raw)) =
      .ok (fsSet s.fs (pd ++ [noteFileName raw])
        (.file (noteBody (noteFileName raw)))) := by
    cases hf : fsFind s.fs (pd ++ [noteFileName raw]) with
    | none => simp [write_text, hf, hdl, hpar]
    | some e =>
      cases e with
      | file c => simp [write_text, hf, hdl, hpar]
      | dir => exact absurd hf hnd
  simp [confirm_name, hm, note_save, hne, hstep, show_note, read_text,
    refresh_tree, notify, fsFind_fsSet_self]

/-- Witness for C3 amended: in c3s, confirming the name todo overwrites
the occupied path n/todo.md with the template. -/
theorem C3_create_overwrites_witness :
    (confirm_name c3s "todo").mode = Mode.browsing ∧
    fsFind (confirm_name c3s "todo").fs (["n"] ++ [noteFileName "todo"]) =
      some (.file (noteBody (noteFileName "todo"))) :=
  C3_create_overwrites c3s ["n"] "todo" rfl (by decide) (by decide) (by decide)

/-- Counterexample for C4: in c4s the ActiveDocument reference points at
n/gone.md, which does not exist; after a refresh the reference is still
present and its path still does not exist, so the refresh neither keeps
the reference valid nor clears it. -/
theorem C4_counterexample :
    (action_refresh c4s).current_file = some ["n", "gone.md"] ∧
    pexists (action_refresh c4s).fs ["n", "gone.md"] = false := by decide

/-- C4 amended: a refresh never touches the ActiveDocument reference (or
the filesystem): after any refresh current_file is exactly what it was
before, whether or not its path still resolves to a document; the
reference is cleared only by the delete action. -/
theorem C4_refresh_keeps_active_document (s : AppState) :
    (refresh_tree s).current_file = s.current_file ∧
    (refresh_tree s).fs = s.fs ∧
    (action_refresh s).current_file = s.current_file ∧
    (action_refresh s).fs = s.fs := by
  simp [refresh_tree, action_refresh, notify]

/-- Dropping three characters from a string that ends in the three-letter
extension recovers the string without it. -/
theorem pyDropRight_append_md (n : String) : pyDropRight (n ++ ".md") 3 = n := by
  have hdata : (n ++ ".md").data = n.data ++ ['.', 'm', 'd'] := rfl
  unfold pyDropRight
  rw [hdata]
  simp

/-- Counterexample for C5: from c5s (empty folder n/A selected), creating
the note named todo writes n/A/todo.md and makes it the ActiveDocument,
but the Selection stays on n/A — it does not become the new path as the
claim requires. -/
theorem C5_counterexample :
    fsFind (confirm_name (action_new_note c5s) "todo").fs ["n", "A", "todo.md"] =
      some (.file "# todo\n\nYour note content here...\n") ∧
    (confirm_name (action_new_note c5s) "todo").current_file =
      some ["n", "A", "todo.md"] ∧
    (confirm_name (action_new_note c5s) "todo").selection = some ["n", "A"] ∧
    some (["n", "A"] : Path) ≠ some (["n", "A", "todo.md"] : Path) := by decide

/-- C5 amended: for every non-empty (after trimming) name confirmed in the
CreatingNote state whose target path is free and whose parent directory
exists, the .md extension is appended only when absent, a document is
created at the resolved parent directory with the templated body whose
heading is the name without the extension, and on success the new path
becomes the ActiveDocument and is displayed — but the Selection is not
moved to the new path: it stays exactly where it was. -/
theorem C5_note_creation (s : AppState) (pd q : Path) (raw : String)
    (hm : s.mode = Mode.creatingNote pd) (hne : pyStrip raw ≠ "")
    (hpar : isDir s.fs pd = true)
    (habs : fsFind s.fs (pd ++ [noteFileName raw]) = none)
    (hsel : s.selection = some q) (hq : pexists s.fs q = true) :
    (pyEndsWith (pyStrip raw) ".md" = false →
      noteFileName raw = pyStrip raw ++ ".md" ∧
      noteBody (noteFileName raw) =
        "# " ++ pyStrip raw ++ "\n\nYour note content here...\n") ∧
    (pyEndsWith (pyStrip raw) ".md" = true → noteFileName raw = pyStrip raw) ∧
    fsFind (confirm_name s raw).fs (pd ++ [noteFileName raw]) =
      some (.file (noteBody (noteFileName raw))) ∧
    (confirm_name s raw).current_file = some (pd ++ [noteFileName raw]) ∧
    (confirm_name s raw).mode = Mode.browsing ∧
    (confirm_name s raw).viewer_markdown = true ∧
    (confirm_name s raw).selection = s.selection := by
  have hdl : (pd ++ [noteFileName raw]).dropLast = pd := by simp
  have hstep : write_text s.fs (pd ++ [noteFileName raw])
      (noteBody (noteFileName raw)) =
      .ok (fsSet s.fs (pd ++ [noteFileName raw])
        (.file (noteBody (noteFileName raw)))) := by
    simp [write_text, habs, hdl, hpar]
  have hqex : pexists (fsSet s.fs (pd ++ [noteFileName raw])
      (.file (noteBody (noteFileName raw)))) q = true :=
    pexists_fsSet _ _ _ _ hq
  refine ⟨?_, ?_, ?_⟩
  · intro h
    constructor
    · simp [noteFileName, h]
    · simp [noteBody, noteFileName, h, pyDropRight_append_md]
  · intro h
    simp [noteFileName, h]
  · simp [confirm_name, hm, note_save, hne, hstep, show_note, read_text,
      refresh_tree, notify, fsFind_fsSet_self, hsel, hqex]

/-- Witness for C5 amended: the Scenario B run from c5s. -/
theorem C5_note_creation_witness :
    fsFind (confirm_name (action_new_note c5s) "todo").fs
        (["n", "A"] ++ [noteFileName "todo"]) =
      some (.file (noteBody (noteFileName "todo"))) ∧
    (confirm_name (action_new_note c5s) "todo").current_file =
      some (["n", "A"] ++ [noteFileName "todo"]) ∧
    (confirm_name (action_new_note c5s) "todo").mode = Mode.browsing ∧
    (confirm_name (action_new_note c5s) "todo").viewer_markdown = true ∧
    (confirm_name (action_new_note c5s) "todo").selection =
      (action_new_note c5s).selection :=
  (C5_note_creation (action_new_note c5s) ["n", "A"] ["n", "A"] "todo"
    (by decide) (by decide) (by decide) (by decide) rfl (by decide)).2.2

/-- Counterexample for C6: in c6s the note n/gone.md no longer exists,
yet confirming the edit does not fail with a NotFound outcome — it
recreates the file with the edited content and reports success. -/
theorem C6_counterexample :
    pexists c6s.fs ["n", "gone.md"] = false ∧
    fsFind (edit_save c6s "new text").fs ["n", "gone.md"] =
      some (.file "new text") ∧
    (edit_save c6s "new text").msgs =
      [("Saved: gone.md", Severity.information)] := by decide

/-- C6 amended: confirming an edit of a document whose file was removed
after the last refresh succeeds — the file is recreated at that path with
the edited content (provided its parent directory still exists), there is
no NotFound outcome, and no hierarchy refresh is triggered: the Selection
is left untouched. -/
theorem C6_edit_save_recreates (s : AppState) (p : Path) (content : String)
    (hm : s.mode = Mode.editing p) (hcf : s.current_file = some p)
    (habs : fsFind s.fs p = none) (hpar : isDir s.fs p.dropLast = true) :
    fsFind (edit_save s content).fs p = some (.file content) ∧
    (edit_save s content).mode = Mode.browsing ∧
    (edit_save s content).selection = s.selection ∧
    (edit_save s content).msgs =
      s.msgs ++ [("Saved: " ++ fileName p, Severity.information)] := by
  have hstep : write_text s.fs p content = .ok (fsSet s.fs p (.file content)) := by
    simp [write_text, habs, hpar]
  simp [edit_save, hm, hcf, hstep, show_note, read_text, fsFind_fsSet_self,
    notify]

/-- Witness for C6 amended: the run from c6s. -/
theorem C6_edit_save_recreates_witness :
    fsFind (edit_save c6s "new text").fs ["n", "gone.md"] =
      some (.file "new text") ∧
    (edit_save c6s "new text").mode = Mode.browsing ∧
    (edit_save c6s "new text").selection = c6s.selection ∧
    (edit_save c6s "new text").msgs =
      c6s.msgs ++ [("Saved: " ++ fileName ["n", "gone.md"], Severity.information)] :=
  C6_edit_save_recreates c6s ["n", "gone.md"] "new text" rfl rfl (by decide)
    (by decide)

/-- C7: confirming a name that is empty after trimming, in either creation
state, is a complete no-op: the state (filesystem, mode, messages, all
fields) is returned unchanged and the prompt is not dismissed. -/
theorem C7_empty_name_noop (s : AppState) (raw : String)
    (h : pyStrip raw = "") :
    (∀ pd, s.mode = Mode.creatingNote pd → confirm_name s raw = s) ∧
    (∀ pd, s.mode = Mode.creatingFolder pd → confirm_name s raw = s) := by
  constructor <;> intro pd hm <;>
    simp [confirm_name, hm, note_save, folder_save, h]

/-- Witness for C7: confirming an all-whitespace name in c7s changes
nothing. -/
theorem C7_empty_name_noop_witness : confirm_name c7s "   " = c7s :=
  (C7_empty_name_noop c7s "   " (by decide)).1 ["n"] rfl

/-- C8: creating a folder at a path already occupied by a folder succeeds
without error — the mkdir call returns the filesystem unchanged, so there
is no duplicate entry, the screen is dismissed and the Created
notification is issued. -/
theorem C8_idempotent_folder_creation (s : AppState) (pd : Path) (raw : String)
    (hm : s.mode = Mode.creatingFolder pd) (hne : pyStrip raw ≠ "")
    (hex : fsFind s.fs (pd ++ [pyStrip raw]) = some Entry.dir) :
    mkdirp s.fs (pd ++ [pyStrip raw]) = .ok s.fs ∧
    (confirm_name s raw).fs = s.fs ∧
    (confirm_name s raw).mode = Mode.browsing ∧
    (confirm_name s raw).msgs =
      s.msgs ++ [("Created folder: " ++ pyStrip raw, Severity.information)] := by
  have hmk : mkdirp s.fs (pd ++ [pyStrip raw]) = .ok s.fs := by
    simp [mkdirp, hex]
  refine ⟨hmk, ?_⟩
  simp [confirm_name, hm, folder_save, hne, hmk, refresh_tree, notify]

/-- Witness for C8: creating n/sub again in c8s leaves the filesystem
identical. -/
theorem C8_idempotent_folder_creation_witness :
    mkdirp c8s.fs (["n"] ++ [pyStrip "sub"]) = .ok c8s.fs ∧
    (confirm_name c8s "sub").fs = c8s.fs ∧
    (confirm_name c8s "sub").mode = Mode.browsing ∧
    (confirm_name c8s "sub").msgs =
      c8s.msgs ++ [("Created folder: " ++ pyStrip "sub", Severity.information)] :=
  C8_idempotent_folder_creation c8s ["n"] "sub" rfl (by decide) (by decide)

/-- Counterexample for C9: in c9s the Selection is the notes root, and the
delete is rejected — but the only notification issued has severity error,
not warning, so the rejection is not surfaced as a warning as the claim
states. -/
theorem C9_counterexample :
    c9s.selection = some c9s.notes_dir ∧
    (action_delete_note c9s).msgs =
      [("Cannot delete the root notes directory", Severity.error)] ∧
    Severity.error ≠ Severity.warning := by decide

/-- C9 amended: triggering delete with no Selection is rejected with a
warning, and with the Selection equal to the notes root it is rejected
with an error-severity notification (not a warning); in both cases nothing
is mutated: filesystem, Selection, ActiveDocument, mode and viewer are all
unchanged. -/
theorem C9_delete_guard (s : AppState) :
    (s.selection = none →
      (action_delete_note s).fs = s.fs ∧
      (action_delete_note s).current_file = s.current_file ∧
      (action_delete_note s).selection = s.selection ∧
      (action_delete_note s).mode = s.mode ∧
      (action_delete_note s).viewer_markdown = s.viewer_markdown ∧
      (action_delete_note s).msgs =
        s.msgs ++ [("No item selected", Severity.warning)]) ∧
    (s.selection = some s.notes_dir →
      (action_delete_note s).fs = s.fs ∧
      (action_delete_note s).current_file = s.current_file ∧
      (action_delete_note s).selection = s.selection ∧
      (action_delete_note s).mode = s.mode ∧
      (action_delete_note s).viewer_markdown = s.viewer_markdown ∧
      (action_delete_note s).msgs =
        s.msgs ++ [("Cannot delete the root notes directory", Severity.error)]) := by
  constructor <;> intro h <;> simp [action_delete_note, h, notify]

/-- Witness for C9 amended: the no-selection state c9n gets the warning,
the root-selected state c9s gets the error notification. -/
theorem C9_delete_guard_witness :
    ((action_delete_note c9n).fs = c9n.fs ∧
     (action_delete_note c9n).current_file = c9n.current_file ∧
     (action_delete_note c9n).selection = c9n.selection ∧
     (action_delete_note c9n).mode = c9n.mode ∧
     (action_delete_note c9n).viewer_markdown = c9n.viewer_markdown ∧
     (action_delete_note c9n).msgs =
       c9n.msgs ++ [("No item selected", Severity.warning)]) ∧
    (action_delete_note c9s).msgs =
      c9s.msgs ++ [("Cannot delete the root notes directory", Severity.error)] :=
  ⟨(C9_delete_guard c9n).1 rfl, ((C9_delete_guard c9s).2 rfl).2.2.2.2.2⟩

/-- C10: after every successful delete — of a document or of an empty
folder — current_file is cleared and the content pane shows the
placeholder again, regardless of whether the deleted path was the one
current_file pointed at. -/
theorem C10_delete_clears_active_document (s : AppState) (p : Path)
    (hsel : s.selection = some p) (hroot : p ≠ s.notes_dir)
    (hkind : isFile s.fs p = true ∨
      (isDir s.fs p = true ∧ hasChildren s.fs p = false)) :
    (action_delete_note s).current_file = none ∧
    (action_delete_note s).viewer_markdown = false := by
  rcases hkind with hf | ⟨hd, hc⟩
  · obtain ⟨c, hfc⟩ := (isFile_iff s.fs p).mp hf
    have hu : unlink s.fs p = .ok (fsErase s.fs p) := by simp [unlink, hfc]
    simp [action_delete_note, hsel, hroot, hf, hu, delete_epilogue,
      refresh_tree, notify]
  · have hfile := isFile_false_of_isDir s.fs p hd
    have hfd := (isDir_iff s.fs p).mp hd
    have hr : rmdir s.fs p = .ok (fsErase s.fs p) := by simp [rmdir, hfd, hc]
    simp [action_delete_note, hsel, hroot, hfile, hd, hc, hr, delete_epilogue,
      refresh_tree, notify]

/-- Witness for C10: in c10s the deleted document n/other.md differs from
the shown document n/shown.md, yet the ActiveDocument is cleared and the
pane reset. -/
theorem C10_delete_clears_active_document_witness :
    c10s.current_file = some ["n", "shown.md"] ∧
    c10s.selection = some ["n", "other.md"] ∧
    (action_delete_note c10s).current_file = none ∧
    (action_delete_note c10s).viewer_markdown = false :=
  ⟨rfl, rfl,
   (C10_delete_clears_active_document c10s ["n", "other.md"] rfl (by decide)
      (Or.inl (by decide))).1,
   (C10_delete_clears_active_document c10s ["n", "other.md"] rfl (by decide)
      (Or.inl (by decide))).2⟩

end CliNotes
